import Mathlib

/-!
Shallow embedding of the resurrector self-healing controller core
(src/src/core/health-monitor.ts, src/src/core/event-bus.ts,
src/src/core/incident-manager.ts, and the orchestrator module), together
with theorems settling the spec claims about it.

Modelling conventions:
- JS numbers that are always integral (HTTP status codes, Date.now()
  millisecond clocks, counters) become Nat; Prometheus-derived metric
  values (error rate, p99 latency, memory MB), which are parsed floats
  compared against exact integral thresholds, become Rat.
- Wall-clock time is a Nat clock threaded through a World state; sleep(ms)
  advances it.  new Date() reads the current clock.
- External HTTP calls (fetch) are the only nondeterminism; their outcomes
  are fixed up front in an Env record, and every fetch is logged in
  World.fetchLog so that claims about which calls a code path performs are
  statable.
- Record<string, unknown> payloads become association lists of
  (String, String) with stringified values.
-/

namespace Resurrector

/-- Severity levels (src/src/core types, `Severity`). -/
inductive Severity where
  | low
  | medium
  | high
  | critical
deriving DecidableEq, Repr

/-- Failure classifications (src/src/core types, `FailureType`). -/
inductive FailureType where
  | crashloop
  | latency_spike
  | memory_leak
  | service_down
  | config_error
  | dependency_failure
  | resource_exhaustion
deriving DecidableEq, Repr

/-- Incident lifecycle states (src/src/core types, `IncidentStatus`). -/
inductive IncidentStatus where
  | detected
  | analyzing
  | healing
  | escalated
  | recovering
  | resolved
  | failed
deriving DecidableEq, Repr

/-- Recovery action kinds (src/src/core types, `RecoveryAction`). -/
inductive RecoveryAction where
  | restart_pod
  | rollback_deployment
  | scale_up
  | scale_down
  | reload_config
  | clear_cache
  | restore_database
  | switch_traffic
deriving DecidableEq, Repr

/-- The closed event-type enumeration of the bus (event-bus.ts `EventType`);
each constructor stands for the corresponding colon-separated string tag. -/
inductive EventType where
  | health_check
  | health_healthy
  | health_degraded
  | anomaly_detected
  | agent_start
  | agent_complete
  | agent_error
  | incident_created
  | incident_update
  | incident_resolved
  | recovery_action
  | recovery_success
  | recovery_failed
  | dr_started
  | dr_complete
  | traffic_switching
  | traffic_complete
  | report_generated
  | system_status
  | chaos_injected
deriving DecidableEq, Repr

/-- A bus event (event-bus.ts `BusEvent`): type tag, timestamp, payload. -/
structure BusEvent where
  type : EventType
  timestamp : Nat
  data : List (String × String)
deriving DecidableEq, Repr

/-- The demoApp sub-record of a health snapshot (health-monitor.ts
`HealthSnapshot.demoApp`). -/
structure DemoAppHealth where
  healthy : Bool
  statusCode : Nat
  responseTimeMs : Nat
  error : Option String
deriving DecidableEq, Repr

/-- Dependency health sub-records (`database` and `prometheus` fields). -/
structure DepHealth where
  healthy : Bool
  error : Option String
deriving DecidableEq, Repr

/-- The metrics bundle of a health snapshot (health-monitor.ts
`HealthSnapshot.metrics`). -/
structure HealthMetrics where
  errorRate : Rat
  latencyP99Ms : Rat
  memoryUsageMB : Rat
  podRestarts : Nat
  httpRequestsTotal : Nat
deriving DecidableEq, Repr

/-- A point-in-time health snapshot (health-monitor.ts `HealthSnapshot`). -/
structure HealthSnapshot where
  demoApp : DemoAppHealth
  database : DepHealth
  prometheus : DepHealth
  metrics : HealthMetrics
  timestamp : Nat
deriving DecidableEq, Repr

/-- An anomaly verdict (health-monitor.ts `AnomalyReport`). -/
structure AnomalyReport where
  detected : Bool
  failureType : FailureType
  severity : Severity
  affectedServices : List String
  evidence : List (String × String)
  description : String
deriving DecidableEq, Repr

/-- Translation of `detectAnomalies` (health-monitor.ts lines 146-223): the
first-match ordered rule chain mapping a snapshot to at most one verdict.
Evidence values are stringified; template-literal descriptions use plain
string concatenation of the same fields. -/
def detectAnomalies (snapshot : HealthSnapshot) : Option AnomalyReport :=
  if snapshot.demoApp.healthy = false ∧ snapshot.demoApp.statusCode = 0 then
    some
      { detected := true
        failureType := .service_down
        severity := .critical
        affectedServices := ["demo-app"]
        evidence :=
          [("statusCode", toString snapshot.demoApp.statusCode),
           ("error", toString snapshot.demoApp.error),
           ("responseTimeMs", toString snapshot.demoApp.responseTimeMs)]
        description :=
          "Demo application is completely unreachable. Service appears to be down." }
  else if snapshot.demoApp.healthy = false ∧ snapshot.demoApp.statusCode = 503 then
    some
      { detected := true
        failureType := .service_down
        severity := .high
        affectedServices := ["demo-app"]
        evidence :=
          [("statusCode", toString snapshot.demoApp.statusCode),
           ("error", toString snapshot.demoApp.error),
           ("responseTimeMs", toString snapshot.demoApp.responseTimeMs)]
        description := "Demo application health check returning 503 Unhealthy." }
  else if snapshot.demoApp.responseTimeMs > 2000 then
    some
      { detected := true
        failureType := .latency_spike
        severity := .high
        affectedServices := ["demo-app"]
        evidence :=
          [("responseTimeMs", toString snapshot.demoApp.responseTimeMs),
           ("latencyP99Ms", toString snapshot.metrics.latencyP99Ms)]
        description :=
          "High latency detected: " ++ toString snapshot.demoApp.responseTimeMs ++
            "ms response time." }
  else if snapshot.metrics.errorRate > 5 then
    some
      { detected := true
        failureType := .dependency_failure
        severity := .high
        affectedServices := ["demo-app"]
        evidence := [("errorRate", toString snapshot.metrics.errorRate)]
        description :=
          "High error rate detected: " ++ toString snapshot.metrics.errorRate ++
            "% of requests failing." }
  else if snapshot.metrics.memoryUsageMB > 200 then
    some
      { detected := true
        failureType := .memory_leak
        severity := .medium
        affectedServices := ["demo-app"]
        evidence := [("memoryUsageMB", toString snapshot.metrics.memoryUsageMB)]
        description :=
          "Memory pressure detected: " ++ toString snapshot.metrics.memoryUsageMB ++
            "MB used." }
  else
    none

/-- The (failureType, severity) verdict of an anomaly report. -/
def verdict (r : AnomalyReport) : FailureType × Severity :=
  (r.failureType, r.severity)

/-- The classifier rule table exactly as claim C2 words it: rules keyed only on
the status code, latency, error rate and memory thresholds, with no mention of
the demoApp.healthy flag.  Used to exhibit the counterexample to C2 as stated. -/
def classifierAsClaimed (s : HealthSnapshot) : Option (FailureType × Severity) :=
  if s.demoApp.statusCode = 0 then some (.service_down, .critical)
  else if s.demoApp.statusCode = 503 then some (.service_down, .high)
  else if s.demoApp.responseTimeMs > 2000 then some (.latency_spike, .high)
  else if s.metrics.errorRate > 5 then some (.dependency_failure, .high)
  else if s.metrics.memoryUsageMB > 200 then some (.memory_leak, .medium)
  else none

/-- The amended classifier rule table, as the code forces it: rules 1 and 2
additionally require the demoApp.healthy flag to be false (the source guards
both service_down rules with !snapshot.demoApp.healthy). -/
def classifierSpecAmended (s : HealthSnapshot) : Option (FailureType × Severity) :=
  if s.demoApp.healthy = false ∧ s.demoApp.statusCode = 0 then
    some (.service_down, .critical)
  else if s.demoApp.healthy = false ∧ s.demoApp.statusCode = 503 then
    some (.service_down, .high)
  else if s.demoApp.responseTimeMs > 2000 then some (.latency_spike, .high)
  else if s.metrics.errorRate > 5 then some (.dependency_failure, .high)
  else if s.metrics.memoryUsageMB > 200 then some (.memory_leak, .medium)
  else none

/-- A snapshot whose demoApp reports status code 0 while the healthy flag is
true and every other reading is nominal. -/
def snapHealthyCode0 : HealthSnapshot :=
  { demoApp := { healthy := true, statusCode := 0, responseTimeMs := 50, error := none }
    database := { healthy := true, error := none }
    prometheus := { healthy := true, error := none }
    metrics :=
      { errorRate := 0, latencyP99Ms := 10, memoryUsageMB := 100,
        podRestarts := 0, httpRequestsTotal := 1000 }
    timestamp := 0 }

/-- A snapshot whose demoApp reports status code 503 while the healthy flag is
true and every other reading is nominal. -/
def snapHealthyCode503 : HealthSnapshot :=
  { demoApp := { healthy := true, statusCode := 503, responseTimeMs := 50, error := none }
    database := { healthy := true, error := none }
    prometheus := { healthy := true, error := none }
    metrics :=
      { errorRate := 0, latencyP99Ms := 10, memoryUsageMB := 100,
        podRestarts := 0, httpRequestsTotal := 1000 }
    timestamp := 0 }

/-- A snapshot of a fully unreachable service: unhealthy, status code 0, fast
failure, nominal metrics. -/
def snapDown0 : HealthSnapshot :=
  { demoApp :=
      { healthy := false, statusCode := 0, responseTimeMs := 50,
        error := some "Connection failed" }
    database := { healthy := false, error := some "Inferred from app health" }
    prometheus := { healthy := true, error := none }
    metrics :=
      { errorRate := 0, latencyP99Ms := 10, memoryUsageMB := 100,
        podRestarts := 0, httpRequestsTotal := 1000 }
    timestamp := 0 }

/-- C1 counterexample: a snapshot with demoApp.statusCode = 0 on which
detectAnomalies returns no report at all, so it does not return a
service_down/critical report for every snapshot with status code 0 — rule 1
also requires demoApp.healthy to be false. -/
theorem detectAnomalies_statusCode0_not_sufficient :
    snapHealthyCode0.demoApp.statusCode = 0 ∧ detectAnomalies snapHealthyCode0 = none := by
  constructor
  · rfl
  · decide

/-- C1 (amended): for every snapshot whose demoApp is unhealthy and reports
status code 0, detectAnomalies returns a service_down/critical report,
regardless of all other snapshot fields (rule 1 fires first). -/
theorem detectAnomalies_down_statusCode0_critical (s : HealthSnapshot)
    (h1 : s.demoApp.healthy = false) (h2 : s.demoApp.statusCode = 0) :
    ∃ r, detectAnomalies s = some r ∧
      r.failureType = .service_down ∧ r.severity = .critical := by
  unfold detectAnomalies
  rw [if_pos ⟨h1, h2⟩]
  exact ⟨_, rfl, rfl, rfl⟩

/-- C1 witness: the amended theorem applied at a concrete unreachable
snapshot. -/
theorem detectAnomalies_down_statusCode0_critical_witness :
    (snapDown0.demoApp.healthy = false ∧ snapDown0.demoApp.statusCode = 0) ∧
      ∃ r, detectAnomalies snapDown0 = some r ∧
        r.failureType = .service_down ∧ r.severity = .critical :=
  ⟨⟨by decide, by decide⟩,
    detectAnomalies_down_statusCode0_critical snapDown0 (by decide) (by decide)⟩

/-- C2 counterexample: on a snapshot with a healthy flag and status code 503,
the code returns no verdict while the rule table as claimed (keyed only on the
status code) returns service_down/high. -/
theorem detectAnomalies_differs_from_claimed_rules :
    (detectAnomalies snapHealthyCode503).map verdict ≠ classifierAsClaimed snapHealthyCode503 := by
  decide

/-- C2 (amended): detectAnomalies is pure and first-match ordered, and agrees
everywhere with the amended rule table in which rules 1 and 2 (status code 0
and HTTP 503) additionally require demoApp.healthy = false; in particular every
snapshot matching none of the five rules yields none, at most one verdict is
returned, and the thresholds 2000 ms, 5 percent and 200 MB with this precedence
decide the verdict. -/
theorem detectAnomalies_eq_amended_rules (s : HealthSnapshot) :
    (detectAnomalies s).map verdict = classifierSpecAmended s := by
  unfold detectAnomalies classifierSpecAmended
  split_ifs <;> rfl

/-- The history bound of the bus (event-bus.ts `maxHistory`). -/
def maxHistory : Nat := 500

/-- JS `array.slice(-n)` for a nonnegative n: slice(-0) is slice(0), the whole
array; otherwise the last n elements (all of them when n exceeds the length). -/
def jsSliceLast {α : Type} (l : List α) (n : Nat) : List α :=
  if n = 0 then l else l.drop (l.length - n)

/-- The history update performed by `ResurrectorEventBus.emit` (event-bus.ts
lines 42-45): push the event, then trim to the most recent maxHistory entries
once the length exceeds the bound. -/
def pushHistory (history : List BusEvent) (e : BusEvent) : List BusEvent :=
  if (history ++ [e]).length > maxHistory then jsSliceLast (history ++ [e]) maxHistory
  else history ++ [e]

/-- `ResurrectorEventBus.getHistory` (event-bus.ts lines 54-56); the source
default for limit is 100. -/
def getHistory (history : List BusEvent) (limit : Nat) : List BusEvent :=
  jsSliceLast history limit

/-- `ResurrectorEventBus.getHistoryByType` (event-bus.ts lines 58-62): filter
by type before truncating; the source default for limit is 50. -/
def getHistoryByType (history : List BusEvent) (type : EventType) (limit : Nat) :
    List BusEvent :=
  jsSliceLast (history.filter (fun e => e.type == type)) limit

/-- The bus history reached by emitting the events of `es`, in order, starting
from the empty history. -/
def emitAll (es : List BusEvent) : List BusEvent := es.foldl pushHistory []

theorem pushHistory_drop (es : List BusEvent) (e : BusEvent) :
    pushHistory (es.drop (es.length - maxHistory)) e =
      (es ++ [e]).drop ((es ++ [e]).length - maxHistory) := by
  have hm : 1 ≤ maxHistory := by decide
  have hL : (es ++ [e]).length = es.length + 1 := by simp
  unfold pushHistory jsSliceLast
  rcases le_or_lt es.length maxHistory with hle | hgt
  · rw [Nat.sub_eq_zero_of_le hle, List.drop_zero]
    by_cases hc : (es ++ [e]).length > maxHistory
    · rw [if_pos hc, if_neg (by omega)]
    · rw [if_neg hc]
      have h0 : (es ++ [e]).length - maxHistory = 0 := by omega
      rw [h0, List.drop_zero]
  · have hlen : (es.drop (es.length - maxHistory)).length = maxHistory := by
      rw [List.length_drop]; omega
    have hdL : (es.drop (es.length - maxHistory) ++ [e]).length = maxHistory + 1 := by
      simp [hlen]
    rw [if_pos (by omega), if_neg (by omega), hdL]
    have h1 : maxHistory + 1 - maxHistory = 1 := by omega
    have h2 : (es ++ [e]).length - maxHistory = (es.length - maxHistory) + 1 := by
      omega
    rw [h1, h2]
    rw [List.drop_append_of_le_length
        (show (1 : Nat) ≤ (es.drop (es.length - maxHistory)).length by
          rw [hlen]; exact hm)]
    rw [List.drop_append_of_le_length
        (show es.length - maxHistory + 1 ≤ es.length by omega)]
    rw [List.drop_drop]

/-- The retained history is exactly the most recent maxHistory of all emitted
events: newer events displace the oldest. -/
theorem emitAll_eq_drop (es : List BusEvent) :
    emitAll es = es.drop (es.length - maxHistory) := by
  induction es using List.reverseRecOn with
  | nil => rfl
  | append_singleton es e ih =>
      unfold emitAll at ih ⊢
      rw [List.foldl_append, List.foldl_cons, List.foldl_nil, ih, pushHistory_drop]

theorem getHistory_pos_spec (h : List BusEvent) (limit : Nat) (hl : 1 ≤ limit) :
    getHistory h limit <:+ h ∧ (getHistory h limit).length = min limit h.length := by
  unfold getHistory jsSliceLast
  rw [if_neg (by omega)]
  exact ⟨List.drop_suffix _ _, by rw [List.length_drop]; omega⟩

/-- C5 counterexample: getHistory with limit 0 returns the entire retained
history (JS slice(-0) is slice(0)), not the most recent min(0, length) = 0
events: after one emit, getHistory 0 has length 1. -/
theorem getHistory_zero_not_empty :
    (getHistory (emitAll [⟨.system_status, 0, []⟩]) 0).length ≠
      min 0 (emitAll [⟨.system_status, 0, []⟩]).length := by
  decide

/-- C5 (amended): after every sequence of emits the history holds at most 500
events, the retained events are exactly the most recent ones — the oldest are
evicted first, the history being a suffix of the full emission sequence of
length min(total, 500) — and for every limit of at least 1, getHistory(limit)
returns the most recent min(limit, length) retained events in chronological
order (a suffix of the retained history).  Limit 0 is excluded: there
getHistory returns the whole history. -/
theorem busHistory_bounded_evicts_oldest (es : List BusEvent) (limit : Nat)
    (hl : 1 ≤ limit) :
    (emitAll es).length ≤ maxHistory ∧
      emitAll es <:+ es ∧
      (emitAll es).length = min es.length maxHistory ∧
      getHistory (emitAll es) limit <:+ emitAll es ∧
      (getHistory (emitAll es) limit).length = min limit (emitAll es).length := by
  have hd := emitAll_eq_drop es
  have hg := getHistory_pos_spec (emitAll es) limit hl
  refine ⟨?_, ?_, ?_, hg.1, hg.2⟩
  · rw [hd, List.length_drop]; omega
  · rw [hd]; exact List.drop_suffix _ _
  · rw [hd, List.length_drop]; omega

/-- Three concrete events for the C5 witness. -/
def c5Events : List BusEvent :=
  [⟨.health_check, 0, []⟩, ⟨.health_healthy, 1, []⟩, ⟨.health_check, 2, []⟩]

/-- C5 witness: the amended theorem applied to three concrete emits and
limit 2. -/
theorem busHistory_bounded_evicts_oldest_witness :
    1 ≤ 2 ∧
      ((emitAll c5Events).length ≤ maxHistory ∧
        emitAll c5Events <:+ c5Events ∧
        (emitAll c5Events).length = min c5Events.length maxHistory ∧
        getHistory (emitAll c5Events) 2 <:+ emitAll c5Events ∧
        (getHistory (emitAll c5Events) 2).length = min 2 (emitAll c5Events).length) :=
  ⟨by decide, busHistory_bounded_evicts_oldest c5Events 2 (by decide)⟩

/-- A subscriber handler, modelled by its observable outcome on an event:
none means it returns normally, some msg means it throws msg. -/
def Handler : Type := BusEvent → Option String

/-- Node EventEmitter synchronous dispatch as the inherited emit
performs it: listeners run one after another in subscription order, and a
throwing listener propagates its exception immediately, so later listeners are
not invoked.  Returns how many listeners were invoked and the propagated
exception, if any. -/
def dispatch : List Handler → BusEvent → Nat × Option String
  | [], _ => (0, none)
  | h :: rest, e =>
    match h e with
    | some err => (1, some err)
    | none =>
      let r := dispatch rest e
      (r.1 + 1, r.2)

/-- The bus: bounded history plus current subscribers (event-bus.ts
`ResurrectorEventBus`; `onEvent` appends to handlers). -/
structure BusState where
  eventHistory : List BusEvent
  handlers : List Handler

/-- `ResurrectorEventBus.emit` (event-bus.ts lines 35-48): append the event to
the bounded history, then dispatch to all handlers.  Returns the new state,
the number of handlers invoked and the exception propagated to the caller, if
a handler threw. -/
def emitBus (b : BusState) (e : BusEvent) : BusState × Nat × Option String :=
  let hist := pushHistory b.eventHistory e
  let d := dispatch b.handlers e
  ({ b with eventHistory := hist }, d.1, d.2)

/-- A bus with two subscribers: the first throws on every event, the second
returns normally. -/
def c9Bus : BusState :=
  { eventHistory := []
    handlers := [fun _ => some "handler boom", fun _ => none] }

/-- The concrete event used by the C9 evaluation. -/
def c9Event : BusEvent := { type := .system_status, timestamp := 0, data := [] }

/-- C9, behaviour at the failing input: with a throwing first subscriber,
emit still appends the event to history (the push precedes dispatch), but
only one of the two handlers is invoked — the second subscriber never
receives the event — and the exception propagates to the caller of emit instead
of emit returning normally: the bus does not isolate handler exceptions. -/
theorem emit_throwing_handler_not_isolated :
    (emitBus c9Bus c9Event).1.eventHistory = [c9Event] ∧
      (emitBus c9Bus c9Event).2.1 = 1 ∧
      (emitBus c9Bus c9Event).2.2 = some "handler boom" := by
  exact ⟨rfl, rfl, rfl⟩

/-- A recovery attempt record (types `RecoveryAttempt`). -/
structure RecoveryAttempt where
  action : RecoveryAction
  timestamp : Nat
  target : String
  success : Bool
  error : Option String
  duration : Nat
deriving DecidableEq, Repr

/-- A timeline narrative entry (types `TimelineEvent`). -/
structure TimelineEvent where
  timestamp : Nat
  event : String
  details : List (String × String)
deriving DecidableEq, Repr

/-- The terminal incident report artifact (types `IncidentReport`).  Incident
ids are modelled as Nats (the source generates unique string ids from the
clock and a random suffix; only identity matters here). -/
structure IncidentReport where
  id : String
  incidentId : Nat
  timeline : List TimelineEvent
  rootCauseAnalysis : String
  actionsSummary : String
  preventionRecommendations : List String
  generatedAt : Nat
deriving DecidableEq, Repr

/-- An incident record (types `Incident`).  The source attaches the timeline
list lazily on first use; here it is always present, defaulting to empty. -/
structure Incident where
  id : Nat
  timestamp : Nat
  status : IncidentStatus
  failureType : FailureType
  severity : Severity
  affectedServices : List String
  rootCause : Option String
  attemptedActions : List RecoveryAttempt
  resolvedAt : Option Nat
  report : Option IncidentReport
  timeline : List TimelineEvent
deriving DecidableEq, Repr

/-- The mutable state the core threads through every operation: the incident
store (incident-manager.ts `incidents` map, as a list keyed by Incident.id),
the bus history (handler dispatch is modelled separately for C9), a log of the
HTTP requests issued so far, a millisecond clock advanced by the sleeps, and
the next fresh incident id. -/
structure World where
  store : List Incident
  busHistory : List BusEvent
  fetchLog : List String
  clock : Nat
  nextId : Nat
deriving Repr

/-- The initial world: empty store, empty history. -/
def initWorld : World :=
  { store := [], busHistory := [], fetchLog := [], clock := 0, nextId := 0 }

/-- eventBus.emit as seen from the core control flow: append a timestamped
event to the bounded history. -/
def emitW (w : World) (t : EventType) (data : List (String × String)) : World :=
  { w with busHistory := pushHistory w.busHistory ⟨t, w.clock, data⟩ }

/-- await sleep(ms): advance the clock. -/
def sleepW (w : World) (ms : Nat) : World :=
  { w with clock := w.clock + ms }

/-- Record that an HTTP request to the given endpoint was issued. -/
def recordFetch (w : World) (endpoint : String) : World :=
  { w with fetchLog := w.fetchLog ++ [endpoint] }

/-- IncidentManager lookup by id (`getIncident` / `incidents.get`). -/
def getIncident (store : List Incident) (id : Nat) : Option Incident :=
  store.find? (fun i => i.id == id)

/-- Rewrite the incident with the given id through f, leaving every other
incident untouched (the Map mutation pattern of incident-manager.ts). -/
def updateIncident (store : List Incident) (id : Nat) (f : Incident → Incident) :
    List Incident :=
  store.map (fun i => if i.id == id then f i else i)

/-- IncidentManager.addTimeline (incident-manager.ts lines 108-123): append a
timestamped narrative entry to the incident timeline; unknown ids are
no-ops. -/
def addTimeline (w : World) (id : Nat) (event : String)
    (details : List (String × String)) : World :=
  match getIncident w.store id with
  | none => w
  | some _ =>
    { w with
        store := updateIncident w.store id (fun i =>
          { i with timeline := i.timeline ++ [⟨w.clock, event, details⟩] }) }

/-- The fresh incident record createIncident builds: status detected, empty
attempts and timeline, no root cause, report or resolution yet.  Its id is the
nextId counter of the world. -/
def newIncident (w : World) (ft : FailureType) (sev : Severity)
    (services : List String) : Incident :=
  { id := w.nextId, timestamp := w.clock, status := .detected,
    failureType := ft, severity := sev, affectedServices := services,
    rootCause := none, attemptedActions := [], resolvedAt := none,
    report := none, timeline := [] }

/-- IncidentManager.createIncident (incident-manager.ts lines 19-50): append a
fresh incident in status detected, emit incident:created, and add the initial
timeline entry. -/
def createIncident (w : World) (ft : FailureType) (sev : Severity)
    (services : List String) : World :=
  let w1 : World :=
    { w with store := w.store ++ [newIncident w ft sev services], nextId := w.nextId + 1 }
  let w2 := emitW w1 .incident_created
    [("incidentId", toString w.nextId), ("failureType", reprStr ft),
     ("severity", reprStr sev)]
  addTimeline w2 w.nextId "Incident detected"
    [("failureType", reprStr ft), ("severity", reprStr sev)]

/-- The record rewrite updateStatus performs on its incident: set the
requested status, and stamp resolvedAt with the current time when the
requested status is resolved. -/
def statusApply (status : IncidentStatus) (clock : Nat) (i : Incident) : Incident :=
  let i1 := { i with status := status }
  if status = .resolved then { i1 with resolvedAt := some clock } else i1

/-- IncidentManager.updateStatus (incident-manager.ts lines 52-67): set the
requested status unconditionally (no transition validation), stamp resolvedAt
with the current time whenever the requested status is resolved, and emit
incident:update.  Unknown ids are no-ops. -/
def updateStatus (w : World) (id : Nat) (status : IncidentStatus) : World :=
  match getIncident w.store id with
  | none => w
  | some _ =>
    let w1 : World :=
      { w with store := updateIncident w.store id (statusApply status w.clock) }
    emitW w1 .incident_update [("incidentId", toString id), ("status", reprStr status)]

/-- IncidentManager.addRecoveryAttempt (incident-manager.ts lines 69-89):
append the attempt, emit recovery:action, and add a timeline entry. -/
def addRecoveryAttempt (w : World) (id : Nat) (a : RecoveryAttempt) : World :=
  match getIncident w.store id with
  | none => w
  | some _ =>
    let w1 : World :=
      { w with
          store := updateIncident w.store id (fun i =>
            { i with attemptedActions := i.attemptedActions ++ [a] }) }
    let w2 := emitW w1 .recovery_action
      [("incidentId", toString id), ("action", reprStr a.action),
       ("target", a.target), ("success", toString a.success)]
    addTimeline w2 id ("Recovery action: " ++ reprStr a.action)
      [("target", a.target), ("success", toString a.success)]

/-- IncidentManager.setRootCause (incident-manager.ts lines 91-95). -/
def setRootCause (w : World) (id : Nat) (rootCause : String) : World :=
  match getIncident w.store id with
  | none => w
  | some _ =>
    { w with store := updateIncident w.store id (fun i => { i with rootCause := some rootCause }) }

/-- IncidentManager.setReport (incident-manager.ts lines 97-106): attach the
report and emit report:generated. -/
def setReport (w : World) (id : Nat) (report : IncidentReport) : World :=
  match getIncident w.store id with
  | none => w
  | some _ =>
    let w1 : World :=
      { w with store := updateIncident w.store id (fun i => { i with report := some report }) }
    emitW w1 .report_generated [("incidentId", toString id)]

/-- True for every incident that is neither resolved nor failed. -/
def nonTerminal (i : Incident) : Bool :=
  !(i.status == .resolved) && !(i.status == .failed)

/-- IncidentManager.getActiveIncident (incident-manager.ts lines 129-133):
the non-terminal incident with the greatest creation timestamp, the earliest
inserted winning ties (a stable descending sort by timestamp, taking the first
element). -/
def getActiveIncident (store : List Incident) : Option Incident :=
  (store.filter nonTerminal).foldl
    (fun acc i =>
      match acc with
      | none => some i
      | some j => if j.timestamp < i.timestamp then some i else some j)
    none

/-- The number of non-terminal incidents in the store. -/
def countNonTerminal (store : List Incident) : Nat :=
  (store.filter nonTerminal).length

/-- A pipeline stage result (agents module `AgentResult`). -/
structure AgentResult where
  agent : String
  success : Bool
  data : List (String × String)
  duration : Nat
deriving DecidableEq, Repr

/-- Look a key up in a string-valued payload record. -/
def listLookup (data : List (String × String)) (key : String) : Option String :=
  (data.find? (fun p => p.1 == key)).map (fun p => p.2)

/-- Look a key up in a stage result payload (`result.data.key` in the
source). -/
def dataLookup (r : AgentResult) (key : String) : Option String :=
  listLookup r.data key

/-- JS `x || d` for an optional string: undefined and the empty string both
fall back to the default. -/
def jsOrString (x : Option String) (d : String) : String :=
  match x with
  | none => d
  | some s => if s == "" then d else s

/-- The outcomes of the external HTTP calls a pipeline run can make, fixed up
front: the model's stand-in for the network.  none means the request threw. -/
structure Env where
  healResetOk : Option Bool
  healHealthOk : Option Bool
  drResetOk : Bool
  drHealthOk : Nat → Bool
  trafficHealthOk : Bool

/-- The identical stage wrapper around every agent body (agents module
`executeAgent`): emit agent:start and a timeline entry, run the body, then on
success emit agent:complete with the result payload, or on a thrown error emit
agent:error, in both cases appending a timeline entry, and always return a
result object instead of propagating the failure. -/
def executeAgent (agentName : String) (incidentId : Nat) (w : World)
    (body : World → Except String (List (String × String)) × World) :
    AgentResult × World :=
  let start := w.clock
  let w1 := emitW w .agent_start
    [("agent", agentName), ("incidentId", toString incidentId)]
  let w2 := addTimeline w1 incidentId (agentName ++ " started") []
  match body w2 with
  | (.ok data, w3) =>
    let duration := w3.clock - start
    let w4 := emitW w3 .agent_complete
      [("agent", agentName), ("incidentId", toString incidentId),
       ("success", "true"), ("duration", toString duration)]
    let w5 := addTimeline w4 incidentId (agentName ++ " completed") data
    ({ agent := agentName, success := true, data := data, duration := duration }, w5)
  | (.error msg, w3) =>
    let duration := w3.clock - start
    let w4 := emitW w3 .agent_error
      [("agent", agentName), ("incidentId", toString incidentId),
       ("error", msg), ("duration", toString duration)]
    let w5 := addTimeline w4 incidentId (agentName ++ " failed: " ++ msg) []
    ({ agent := agentName, success := false, data := [("error", msg)],
       duration := duration }, w5)

/-- Agent 1: Observability Agent (agents module `runObservabilityAgent`):
a fixed simulated delay, then a structured finding packaging the anomaly and
snapshot; no external side effects. -/
def runObservabilityAgent (w : World) (incidentId : Nat) (anomaly : AnomalyReport)
    (snapshot : HealthSnapshot) : AgentResult × World :=
  executeAgent "Observability Agent" incidentId w (fun w =>
    let w := sleepW w 800
    (.ok
      [("anomalyType", reprStr anomaly.failureType),
       ("severity", reprStr anomaly.severity),
       ("description", anomaly.description),
       ("appStatus", toString snapshot.demoApp.statusCode),
       ("responseTimeMs", toString snapshot.demoApp.responseTimeMs),
       ("errorRate", toString snapshot.metrics.errorRate),
       ("memoryMB", toString snapshot.metrics.memoryUsageMB)], w))

/-- Agent 2: Incident Analyzer (agents module `runAnalyzerAgent`): transition
to analyzing, then the deterministic lookup keyed by the failure type; the
default case yields low confidence and restart_service. -/
def runAnalyzerAgent (w : World) (incidentId : Nat) (anomaly : AnomalyReport)
    (snapshot : HealthSnapshot) : AgentResult × World :=
  executeAgent "Incident Analyzer" incidentId w (fun w =>
    let w := updateStatus w incidentId .analyzing
    let w := sleepW w 1200
    let rc :=
      match anomaly.failureType with
      | .service_down =>
        ("Application health check failing - service marked itself unhealthy or crashed",
         "Application Failure", "restart_service", "high")
      | .latency_spike =>
        ("Artificial latency injection or resource contention causing slow responses",
         "Performance Degradation", "reset_latency", "high")
      | .memory_leak =>
        ("Memory leak detected - application consuming excessive memory",
         "Resource Exhaustion", "restart_and_clear", "medium")
      | .dependency_failure =>
        ("High error rate - database connection or dependency failure",
         "Dependency Failure", "check_dependencies", "medium")
      | ft =>
        ("Unknown failure type: " ++ reprStr ft, "Unknown", "restart_service", "low")
    let w := setRootCause w incidentId rc.1
    (.ok
      [("rootCause", rc.1), ("rootCauseCategory", rc.2.1),
       ("fixStrategy", rc.2.2.1), ("confidence", rc.2.2.2),
       ("errorRate", toString snapshot.metrics.errorRate),
       ("latencyP99Ms", toString snapshot.metrics.latencyP99Ms),
       ("memoryUsageMB", toString snapshot.metrics.memoryUsageMB)], w))

/-- Whether a fix-strategy token is one of the four cases of the Self-Healing
switch (all of which run the same /chaos/reset remediation). -/
def knownStrategy (s : String) : Bool :=
  s == "restart_service" || s == "reset_latency" || s == "restart_and_clear" ||
    s == "check_dependencies"

/-- The remediation section of the Self-Healing body (the switch plus its
surrounding try/catch in agents `runHealingAgent`): returns the success flag,
the action description, the error text if any, and the evolved world. -/
def healRemediate (env : Env) (incidentId : Nat) (fixStrategy : String) (w : World) :
    Bool × String × Option String × World :=
  if knownStrategy fixStrategy then
    let actionTaken := "Reset chaos state via /chaos/reset"
    let w := emitW w .recovery_action
      [("incidentId", toString incidentId),
       ("action", "Sending reset signal to demo application"), ("phase", "executing")]
    let w := sleepW w 500
    let w := recordFetch w "/chaos/reset"
    match env.healResetOk with
    | none => (false, actionTaken, some "Reset request failed", w)
    | some false => (false, actionTaken, some "Reset failed: HTTP error", w)
    | some true =>
      let w := emitW w .recovery_action
        [("incidentId", toString incidentId),
         ("action", "Waiting for service stabilization"), ("phase", "stabilizing")]
      let w := sleepW w 2000
      let w := recordFetch w "/health"
      match env.healHealthOk with
      | none => (false, actionTaken, some "Reset request failed", w)
      | some true => (true, actionTaken, none, w)
      | some false => (false, actionTaken, some "Health check failed after reset", w)
  else
    (false, "Unknown strategy: " ++ fixStrategy, some "No handler for this fix strategy", w)

/-- Agent 3: Self-Healing Agent (agents module `runHealingAgent`): transition
to healing, run the remediation, always append exactly one RecoveryAttempt,
and emit recovery:success or recovery:failed. -/
def runHealingAgent (env : Env) (w : World) (incidentId : Nat) (fixStrategy : String) :
    AgentResult × World :=
  executeAgent "Self-Healing Agent" incidentId w (fun w =>
    let w := updateStatus w incidentId .healing
    let start := w.clock
    let r := healRemediate env incidentId fixStrategy w
    let success := r.1
    let actionTaken := r.2.1
    let actionError := r.2.2.1
    let w := r.2.2.2
    let attempt : RecoveryAttempt :=
      { action := .restart_pod, timestamp := w.clock, target := "demo-app",
        success := success, error := actionError, duration := w.clock - start }
    let w := addRecoveryAttempt w incidentId attempt
    let w :=
      if success then
        emitW w .recovery_success [("incidentId", toString incidentId), ("action", actionTaken)]
      else
        emitW w .recovery_failed [("incidentId", toString incidentId), ("action", actionTaken)]
    (.ok [("success", toString success), ("actionTaken", actionTaken)], w))

/-- The payload of Agent 4 as a pure function of the healing outcome and the
prior-attempt count (the three early returns of agents
`runRecoveryDecisionAgent`): success decides resolved; both failure branches
decide escalate_dr, the attempt count shaping only the reason text. -/
def decisionData (healingSuccess : Bool) (attempts : Nat) : List (String × String) :=
  if healingSuccess then
    [("decision", "resolved"),
     ("reason", "Self-healing succeeded, service is healthy"),
     ("nextAction", "generate_report")]
  else if attempts ≥ 3 then
    [("decision", "escalate_dr"),
     ("reason",
      "Self-healing failed after " ++ toString attempts ++
        " attempts. Escalating to disaster recovery."),
     ("nextAction", "disaster_recovery")]
  else
    [("decision", "escalate_dr"),
     ("reason", "Self-healing failed. Escalating to disaster recovery."),
     ("nextAction", "disaster_recovery")]

def runRecoveryDecisionAgent (w : World) (incidentId : Nat) (healingSuccess : Bool) :
    AgentResult × World :=
  executeAgent "Recovery Decision Agent" incidentId w (fun w =>
    let w := sleepW w 600
    let attempts :=
      ((getIncident w.store incidentId).map (fun i => i.attemptedActions.length)).getD 0
    (.ok (decisionData healingSuccess attempts), w))

/-- The disaster-recovery health validation loop (agents `runDisasterRecoveryAgent`
step 3): up to five sequential health checks, stopping at the first success,
sleeping one second after each failure. -/
def drValidateHealth (ok : Nat → Bool) (i fuel : Nat) (w : World) : Bool × World :=
  match fuel with
  | 0 => (false, w)
  | fuel + 1 =>
    let w := recordFetch w "/health"
    if ok i then (true, w)
    else
      let w := sleepW w 1000
      drValidateHealth ok (i + 1) fuel w

/-- Agent 5: Disaster Recovery Agent (agents module `runDisasterRecoveryAgent`):
transition to recovering, backup identification, a tolerated remediation reset,
a fixed wait, the five-try health validation, exactly one RecoveryAttempt with
the aggregate outcome, and dr:complete. -/
def runDisasterRecoveryAgent (env : Env) (w : World) (incidentId : Nat) :
    AgentResult × World :=
  executeAgent "Disaster Recovery Agent" incidentId w (fun w =>
    let w := updateStatus w incidentId .recovering
    let w := emitW w .dr_started [("incidentId", toString incidentId)]
    let w := emitW w .recovery_action
      [("incidentId", toString incidentId),
       ("action", "Identifying latest backup snapshot"), ("phase", "backup_check")]
    let w := sleepW w 1000
    let w := emitW w .recovery_action
      [("incidentId", toString incidentId),
       ("action", "Restarting demo-app container"), ("phase", "container_restart")]
    let w := recordFetch w "/chaos/reset"
    let containerRestarted := env.drResetOk
    let w := sleepW w 2000
    let w := emitW w .recovery_action
      [("incidentId", toString incidentId),
       ("action", "Validating system health post-recovery"), ("phase", "health_validation")]
    let r := drValidateHealth env.drHealthOk 0 5 w
    let recovered := r.1
    let w := r.2
    let attempt : RecoveryAttempt :=
      { action := .restore_database, timestamp := w.clock, target := "demo-app + demo-db",
        success := recovered, error := none, duration := 4000 }
    let w := addRecoveryAttempt w incidentId attempt
    let w := emitW w .dr_complete
      [("incidentId", toString incidentId), ("success", toString recovered),
       ("containerRestarted", toString containerRestarted)]
    (.ok
      [("recoveryStatus", if recovered then "success" else "partial"),
       ("restoredFrom", "latest-snapshot"),
       ("dataLossWindow", "none"),
       ("readyForTraffic", toString recovered)], w))

/-- Agent 6: Traffic Switch Agent (agents module `runTrafficSwitchAgent`): if
the prior stage reported the system not ready, short-circuit to a failed
result before the stabilization wait and the final health check; otherwise
wait, check once, and report complete or rolled_back. -/
def runTrafficSwitchAgent (env : Env) (w : World) (incidentId : Nat)
    (readyForTraffic : Bool) : AgentResult × World :=
  executeAgent "Traffic Switch Agent" incidentId w (fun w =>
    let w := emitW w .traffic_switching [("incidentId", toString incidentId)]
    if readyForTraffic = false then
      (.ok [("trafficStatus", "failed"), ("reason", "System not ready for traffic")], w)
    else
      let w := emitW w .recovery_action
        [("incidentId", toString incidentId),
         ("action", "Verifying system stability before traffic switch"),
         ("phase", "stability_check")]
      let w := sleepW w 1500
      let w := recordFetch w "/health"
      let stable := env.trafficHealthOk
      let w :=
        if stable then emitW w .traffic_complete [("incidentId", toString incidentId)]
        else w
      (.ok
        [("trafficStatus", if stable then "complete" else "rolled_back"),
         ("currentTrafficPercent", if stable then "100" else "0"),
         ("stabilityCheck", if stable then "passed" else "failed")], w))

/-- The fixed prevention-recommendation lookup (agents module
`generateRecommendations`): a per-classification list extended with three
baseline recommendations common to all classifications. -/
def generateRecommendations (failureType : FailureType) : List String :=
  let base :=
    ["Implement automated health check monitoring with alerting",
     "Add circuit breakers for external dependencies",
     "Set up runbook automation for common failure scenarios"]
  match failureType with
  | .service_down =>
    ["Add readiness and liveness probes with appropriate thresholds",
     "Implement graceful shutdown handling",
     "Configure horizontal pod autoscaling for high availability"] ++ base
  | .latency_spike =>
    ["Set up latency-based alerting with P95/P99 thresholds",
     "Implement request timeout and retry policies",
     "Add caching layer for frequently accessed data"] ++ base
  | .memory_leak =>
    ["Profile application memory usage in staging",
     "Set memory limits and configure OOM kill policies",
     "Implement periodic garbage collection monitoring"] ++ base
  | .dependency_failure =>
    ["Implement circuit breaker pattern for database connections",
     "Add connection pool monitoring and alerting",
     "Configure database failover and read replicas"] ++ base
  | _ => base

/-- The body of Agent 7 (agents module `runReporterAgent`): look the incident
up (throwing if absent), compile the report from its timeline, root cause and
attempts, attach it, transition the incident to resolved, and emit
incident:resolved. -/
def reporterBody (incidentId : Nat) (w : World) :
    Except String (List (String × String)) × World :=
  match getIncident w.store incidentId with
    | none => (.error "Incident not found", w)
    | some incident =>
      let w := sleepW w 1000
      let duration :=
        match incident.resolvedAt with
        | some t => t - incident.timestamp
        | none => w.clock - incident.timestamp
      let report : IncidentReport :=
        { id := "RPT-" ++ toString w.clock
          incidentId := incidentId
          timeline := incident.timeline
          rootCauseAnalysis := incident.rootCause.getD "Root cause analysis pending"
          actionsSummary :=
            String.intercalate "\n"
              (incident.attemptedActions.map (fun a =>
                reprStr a.action ++ " on " ++ a.target ++ ": " ++
                  (if a.success then "SUCCESS" else "FAILED")))
          preventionRecommendations := generateRecommendations incident.failureType
          generatedAt := w.clock }
      let w := setReport w incidentId report
      let w := updateStatus w incidentId .resolved
      let w := emitW w .incident_resolved
        [("incidentId", toString incidentId), ("durationMs", toString duration)]
      (.ok
        [("reportId", report.id), ("durationMs", toString duration),
         ("rootCause", report.rootCauseAnalysis)], w)

/-- Agent 7: Incident Reporter — the body above behind the stage wrapper. -/
def runReporterAgent (w : World) (incidentId : Nat) : AgentResult × World :=
  executeAgent "Incident Reporter" incidentId w (reporterBody incidentId)

/-- Orchestrator.runPipeline (orchestrator module lines 92-148): create the
incident, run stages 1-4, then branch on the Decision verdict into either the
Reporter directly or Disaster Recovery, Traffic Switch and the Reporter.  The
single-flight guard is set on entry and cleared in the final step; in this
sequential model a pipeline runs to completion within the poll that started
it, so the guard is false at every step boundary.  The tail — the Decision
stage and the branch it selects — is split out so the branching can be
reasoned about for any healing outcome. -/
def pipelineTail (env : Env) (incidentId : Nat) (w : World) (healingSuccess : Bool) :
    World :=
  let dec := runRecoveryDecisionAgent w incidentId healingSuccess
  let decision := dataLookup dec.1 "decision"
  if decision == some "resolved" then
    (runReporterAgent dec.2 incidentId).2
  else if decision == some "escalate_dr" then
    let w3 := updateStatus dec.2 incidentId .escalated
    let dr := runDisasterRecoveryAgent env w3 incidentId
    let readyForTraffic := dataLookup dr.1 "readyForTraffic" == some "true"
    let w4 := (runTrafficSwitchAgent env dr.2 incidentId readyForTraffic).2
    (runReporterAgent w4 incidentId).2
  else
    dec.2

def runPipeline (env : Env) (w0 : World) (anomaly : AnomalyReport)
    (snapshot : HealthSnapshot) : World :=
  let incidentId := w0.nextId
  let w1 := createIncident w0 anomaly.failureType anomaly.severity anomaly.affectedServices
  let w2 := (runObservabilityAgent w1 incidentId anomaly snapshot).2
  let ar := runAnalyzerAgent w2 incidentId anomaly snapshot
  let fixStrategy := jsOrString (dataLookup ar.1 "fixStrategy") "restart_service"
  let hr := runHealingAgent env ar.2 incidentId fixStrategy
  let healingSuccess := dataLookup hr.1 "success" == some "true"
  pipelineTail env incidentId hr.2 healingSuccess

/-- The poll-loop state of the orchestrator: the shared world plus the two
hysteresis counters.  running and pipelineRunning are lifecycle flags that are
true only transiently inside a tick in this sequential model. -/
structure OrchState where
  world : World
  consecutiveHealthy : Nat
  consecutiveUnhealthy : Nat
deriving Repr

/-- The initial orchestrator state. -/
def initOrch : OrchState :=
  { world := initWorld, consecutiveHealthy := 0, consecutiveUnhealthy := 0 }

/-- One tick of Orchestrator.monitoringLoop (orchestrator module lines 47-90):
classify the snapshot; on an anomaly increment consecutiveUnhealthy and reset
consecutiveHealthy, and only when the unhealthy streak reaches 2 with no
active incident open an incident and run the full pipeline (which resets the
unhealthy counter); on a healthy poll increment consecutiveHealthy and reset
consecutiveUnhealthy.  The poll input carries the snapshot the (external)
health prober produced and the environment the pipeline would run against. -/
def monitoringStep (s : OrchState) (poll : HealthSnapshot × Env) : OrchState :=
  let snapshot := poll.1
  let env := poll.2
  let w := emitW s.world .health_check
    [("healthy", toString snapshot.demoApp.healthy),
     ("statusCode", toString snapshot.demoApp.statusCode)]
  match detectAnomalies snapshot with
  | some anomaly =>
    let cu := s.consecutiveUnhealthy + 1
    if cu ≥ 2 then
      match getActiveIncident w.store with
      | none =>
        let w := emitW w .anomaly_detected
          [("failureType", reprStr anomaly.failureType),
           ("severity", reprStr anomaly.severity),
           ("description", anomaly.description)]
        let w := runPipeline env w anomaly snapshot
        { world := w, consecutiveHealthy := 0, consecutiveUnhealthy := 0 }
      | some _ => { world := w, consecutiveHealthy := 0, consecutiveUnhealthy := cu }
    else
      { world := w, consecutiveHealthy := 0, consecutiveUnhealthy := cu }
  | none =>
    { world := w, consecutiveHealthy := s.consecutiveHealthy + 1,
      consecutiveUnhealthy := 0 }

@[simp]
theorem emitW_store (w : World) (t : EventType) (d : List (String × String)) :
    (emitW w t d).store = w.store := rfl

@[simp]
theorem emitW_nextId (w : World) (t : EventType) (d : List (String × String)) :
    (emitW w t d).nextId = w.nextId := rfl

@[simp]
theorem emitW_clock (w : World) (t : EventType) (d : List (String × String)) :
    (emitW w t d).clock = w.clock := rfl

@[simp]
theorem emitW_fetchLog (w : World) (t : EventType) (d : List (String × String)) :
    (emitW w t d).fetchLog = w.fetchLog := rfl

@[simp]
theorem sleepW_store (w : World) (ms : Nat) : (sleepW w ms).store = w.store := rfl

@[simp]
theorem sleepW_nextId (w : World) (ms : Nat) : (sleepW w ms).nextId = w.nextId := rfl

@[simp]
theorem recordFetch_store (w : World) (u : String) : (recordFetch w u).store = w.store := rfl

@[simp]
theorem recordFetch_nextId (w : World) (u : String) :
    (recordFetch w u).nextId = w.nextId := rfl

@[simp]
theorem recordFetch_clock (w : World) (u : String) : (recordFetch w u).clock = w.clock := rfl

@[simp]
theorem statusApply_id (st : IncidentStatus) (c : Nat) (i : Incident) :
    (statusApply st c i).id = i.id := by
  unfold statusApply
  split <;> rfl

@[simp]
theorem statusApply_status (st : IncidentStatus) (c : Nat) (i : Incident) :
    (statusApply st c i).status = st := by
  unfold statusApply
  split <;> rfl

@[simp]
theorem statusApply_report (st : IncidentStatus) (c : Nat) (i : Incident) :
    (statusApply st c i).report = i.report := by
  unfold statusApply
  split <;> rfl

theorem statusApply_resolvedAt_of_resolved (c : Nat) (i : Incident) :
    (statusApply .resolved c i).resolvedAt = some c := by
  unfold statusApply
  rw [if_pos rfl]

/-- getIncident commutes with an id-preserving map over the store. -/
theorem getIncident_map (s : List Incident) (t : Nat) (g : Incident → Incident)
    (hg : ∀ i, (g i).id = i.id) :
    getIncident (s.map g) t = (getIncident s t).map g := by
  unfold getIncident
  rw [List.find?_map]
  have hcomp : ((fun i : Incident => i.id == t) ∘ g) = (fun i : Incident => i.id == t) := by
    funext i
    simp [Function.comp, hg]
  rw [hcomp]

/-- getIncident after updateIncident at the same id: the looked-up incident is
rewritten through f. -/
theorem getIncident_updateIncident (s : List Incident) (t : Nat)
    (f : Incident → Incident) (hf : ∀ i, (f i).id = i.id) :
    getIncident (updateIncident s t f) t = (getIncident s t).map f := by
  unfold updateIncident
  rw [getIncident_map s t _
    (by intro i; by_cases h : (i.id == t) = true <;> simp [h, hf])]
  cases hfind : getIncident s t with
  | none => rfl
  | some a =>
    unfold getIncident at hfind
    have ha := List.find?_some hfind
    simp only at ha
    have ha2 : a.id = t := by simpa using ha
    simp [ha2]

/-- After the incident with id t has been created, every store mutation the
pipeline performs only rewrites incidents with id t in place: ids are
preserved, incidents with other ids are untouched, and nothing is inserted or
removed. -/
def TargetMapped (t : Nat) (s s' : List Incident) : Prop :=
  ∃ g : Incident → Incident,
    (∀ i, (g i).id = i.id) ∧ (∀ i, i.id ≠ t → g i = i) ∧ s' = s.map g

theorem targetMapped_refl (t : Nat) (s : List Incident) : TargetMapped t s s :=
  ⟨id, fun _ => rfl, fun _ _ => rfl, (List.map_id s).symm⟩

theorem targetMapped_trans {t : Nat} {s1 s2 s3 : List Incident}
    (h12 : TargetMapped t s1 s2) (h23 : TargetMapped t s2 s3) :
    TargetMapped t s1 s3 := by
  obtain ⟨g1, hg1, hn1, he1⟩ := h12
  obtain ⟨g2, hg2, hn2, he2⟩ := h23
  refine ⟨g2 ∘ g1, ?_, ?_, ?_⟩
  · intro i
    simp [Function.comp, hg2, hg1]
  · intro i hi
    simp [Function.comp, hn1 i hi, hn2 i hi]
  · rw [he2, he1, List.map_map]

theorem targetMapped_updateIncident (t : Nat) (s : List Incident)
    (f : Incident → Incident) (hf : ∀ i, (f i).id = i.id) :
    TargetMapped t s (updateIncident s t f) := by
  refine ⟨fun i => if i.id == t then f i else i, ?_, ?_, rfl⟩
  · intro i
    by_cases h : (i.id == t) = true <;> simp [h, hf]
  · intro i hi
    simp [hi]

theorem targetMapped_length {t : Nat} {s s' : List Incident}
    (h : TargetMapped t s s') : s'.length = s.length := by
  obtain ⟨g, _, _, he⟩ := h
  rw [he, List.length_map]

theorem targetMapped_getIncident {t : Nat} {s s' : List Incident}
    (h : TargetMapped t s s') {i : Incident} (hi : getIncident s t = some i) :
    ∃ g : Incident → Incident, (g i).id = i.id ∧ getIncident s' t = some (g i) := by
  obtain ⟨g, hg, _, he⟩ := h
  exact ⟨g, hg i, by rw [he, getIncident_map s t g hg, hi]; rfl⟩

/-- The world-level evolution relation every post-creation pipeline operation
satisfies: the id counter is untouched and the store is only rewritten at the
target incident. -/
def PipeStep (t : Nat) (w w' : World) : Prop :=
  w'.nextId = w.nextId ∧ TargetMapped t w.store w'.store

theorem pipeStep_refl (t : Nat) (w : World) : PipeStep t w w :=
  ⟨rfl, targetMapped_refl t w.store⟩

theorem pipeStep_trans {t : Nat} {w1 w2 w3 : World}
    (h12 : PipeStep t w1 w2) (h23 : PipeStep t w2 w3) : PipeStep t w1 w3 :=
  ⟨h23.1.trans h12.1, targetMapped_trans h12.2 h23.2⟩

theorem pipeStep_of_store_eq {t : Nat} {w w' : World}
    (hs : w'.store = w.store) (hn : w'.nextId = w.nextId) : PipeStep t w w' :=
  ⟨hn, hs ▸ targetMapped_refl t w.store⟩

theorem pipeStep_emitW (t : Nat) (w : World) (ty : EventType)
    (d : List (String × String)) : PipeStep t w (emitW w ty d) :=
  pipeStep_of_store_eq rfl rfl

theorem pipeStep_sleepW (t : Nat) (w : World) (ms : Nat) :
    PipeStep t w (sleepW w ms) :=
  pipeStep_of_store_eq rfl rfl

theorem pipeStep_recordFetch (t : Nat) (w : World) (u : String) :
    PipeStep t w (recordFetch w u) :=
  pipeStep_of_store_eq rfl rfl

theorem pipeStep_addTimeline (t : Nat) (w : World) (ev : String)
    (dt : List (String × String)) : PipeStep t w (addTimeline w t ev dt) := by
  unfold addTimeline
  cases h : getIncident w.store t with
  | none => exact pipeStep_refl t w
  | some i =>
    exact ⟨rfl, targetMapped_updateIncident t w.store _ (fun _ => rfl)⟩

theorem pipeStep_updateStatus (t : Nat) (w : World) (st : IncidentStatus) :
    PipeStep t w (updateStatus w t st) := by
  unfold updateStatus
  cases h : getIncident w.store t with
  | none => exact pipeStep_refl t w
  | some i =>
    exact ⟨rfl, targetMapped_updateIncident t w.store _ (fun i => statusApply_id st w.clock i)⟩

theorem pipeStep_setRootCause (t : Nat) (w : World) (rc : String) :
    PipeStep t w (setRootCause w t rc) := by
  unfold setRootCause
  cases h : getIncident w.store t with
  | none => exact pipeStep_refl t w
  | some i =>
    exact ⟨rfl, targetMapped_updateIncident t w.store _ (fun _ => rfl)⟩

theorem pipeStep_setReport (t : Nat) (w : World) (r : IncidentReport) :
    PipeStep t w (setReport w t r) := by
  unfold setReport
  cases h : getIncident w.store t with
  | none => exact pipeStep_refl t w
  | some i =>
    exact ⟨rfl, targetMapped_updateIncident t w.store _ (fun _ => rfl)⟩

theorem pipeStep_addRecoveryAttempt (t : Nat) (w : World) (a : RecoveryAttempt) :
    PipeStep t w (addRecoveryAttempt w t a) := by
  unfold addRecoveryAttempt
  cases h : getIncident w.store t with
  | none => exact pipeStep_refl t w
  | some i =>
    have h1 : PipeStep t w
        { w with store := updateIncident w.store t (fun i =>
          { i with attemptedActions := i.attemptedActions ++ [a] }) } :=
      ⟨rfl, targetMapped_updateIncident t w.store _ (fun _ => rfl)⟩
    exact pipeStep_trans (pipeStep_trans h1 (pipeStep_emitW t _ _ _))
      (pipeStep_addTimeline t _ _ _)

theorem pipeStep_executeAgent (t : Nat) (w : World) (name : String)
    (body : World → Except String (List (String × String)) × World)
    (hbody : ∀ w', PipeStep t w' (body w').2) :
    PipeStep t w (executeAgent name t w body).2 := by
  simp only [executeAgent]
  have h2 : PipeStep t w (addTimeline (emitW w .agent_start
      [("agent", name), ("incidentId", toString t)]) t (name ++ " started") []) :=
    pipeStep_trans (pipeStep_emitW t w _ _) (pipeStep_addTimeline t _ _ _)
  have h3 := pipeStep_trans h2 (hbody _)
  rcases hb : body (addTimeline (emitW w .agent_start
      [("agent", name), ("incidentId", toString t)]) t (name ++ " started") [])
    with ⟨res, w3⟩
  rw [hb] at h3
  cases res with
  | ok data =>
    exact pipeStep_trans h3
      (pipeStep_trans (pipeStep_emitW t w3 _ _) (pipeStep_addTimeline t _ _ _))
  | error msg =>
    exact pipeStep_trans h3
      (pipeStep_trans (pipeStep_emitW t w3 _ _) (pipeStep_addTimeline t _ _ _))

@[simp]
theorem addTimeline_nextId (w : World) (id : Nat) (ev : String)
    (dt : List (String × String)) : (addTimeline w id ev dt).nextId = w.nextId := by
  unfold addTimeline
  cases h : getIncident w.store id <;> rfl

@[simp]
theorem addTimeline_clock (w : World) (id : Nat) (ev : String)
    (dt : List (String × String)) : (addTimeline w id ev dt).clock = w.clock := by
  unfold addTimeline
  cases h : getIncident w.store id <;> rfl

@[simp]
theorem addTimeline_fetchLog (w : World) (id : Nat) (ev : String)
    (dt : List (String × String)) : (addTimeline w id ev dt).fetchLog = w.fetchLog := by
  unfold addTimeline
  cases h : getIncident w.store id <;> rfl

theorem getIncident_addTimeline (w : World) (t : Nat) (ev : String)
    (dt : List (String × String)) :
    getIncident (addTimeline w t ev dt).store t =
      (getIncident w.store t).map
        (fun i => { i with timeline := i.timeline ++ [⟨w.clock, ev, dt⟩] }) := by
  unfold addTimeline
  cases h : getIncident w.store t with
  | none => simp [h]
  | some i =>
    have hrw := getIncident_updateIncident w.store t
      (fun i => { i with timeline := i.timeline ++ [⟨w.clock, ev, dt⟩] }) (fun _ => rfl)
    simp [hrw, h]

theorem getIncident_setReport (w : World) (t : Nat) (r : IncidentReport) :
    getIncident (setReport w t r).store t =
      (getIncident w.store t).map (fun i => { i with report := some r }) := by
  unfold setReport
  cases h : getIncident w.store t with
  | none => simp [h]
  | some i =>
    have hrw := getIncident_updateIncident w.store t
      (fun i => { i with report := some r }) (fun _ => rfl)
    simp [hrw, h]

theorem getIncident_updateStatus (w : World) (t : Nat) (st : IncidentStatus) :
    getIncident (updateStatus w t st).store t =
      (getIncident w.store t).map (statusApply st w.clock) := by
  unfold updateStatus
  cases h : getIncident w.store t with
  | none => simp [h]
  | some i =>
    have hrw := getIncident_updateIncident w.store t
      (statusApply st w.clock) (statusApply_id st w.clock)
    simp [hrw, h]

theorem healRemediate_store (env : Env) (t : Nat) (fs : String) (w : World) :
    (healRemediate env t fs w).2.2.2.store = w.store ∧
      (healRemediate env t fs w).2.2.2.nextId = w.nextId := by
  rcases env with ⟨hr, hh, dro, drh, th⟩
  by_cases hk : knownStrategy fs = true
  · rcases hr with _ | b
    · simp [healRemediate, hk]
    · rcases hh with _ | c
      · cases b <;> simp [healRemediate, hk]
      · cases b <;> cases c <;> simp [healRemediate, hk]
  · simp [healRemediate, hk]

theorem drValidateHealth_store (ok : Nat → Bool) (i fuel : Nat) (w : World) :
    (drValidateHealth ok i fuel w).2.store = w.store ∧
      (drValidateHealth ok i fuel w).2.nextId = w.nextId := by
  induction fuel generalizing i w with
  | zero => exact ⟨rfl, rfl⟩
  | succ n ih =>
    by_cases h : ok i = true
    · simp [drValidateHealth, h]
    · have := ih (i + 1) (sleepW (recordFetch w "/health") 1000)
      simpa [drValidateHealth, h] using this

theorem pipeStep_ite_emitW (t : Nat) (w : World) (b : Bool) (t1 t2 : EventType)
    (d1 d2 : List (String × String)) :
    PipeStep t w (if b then emitW w t1 d1 else emitW w t2 d2) := by
  cases b
  · exact pipeStep_emitW t w t2 d2
  · exact pipeStep_emitW t w t1 d1

theorem pipeStep_ite_emitW_id (t : Nat) (w : World) (b : Bool) (t1 : EventType)
    (d1 : List (String × String)) :
    PipeStep t w (if b then emitW w t1 d1 else w) := by
  cases b
  · exact pipeStep_refl t w
  · exact pipeStep_emitW t w t1 d1

theorem pipeStep_runObservabilityAgent (t : Nat) (w : World) (a : AnomalyReport)
    (snap : HealthSnapshot) : PipeStep t w (runObservabilityAgent w t a snap).2 := by
  unfold runObservabilityAgent
  refine pipeStep_executeAgent t w _ _ ?_
  intro w'
  exact pipeStep_sleepW t w' 800

theorem pipeStep_runAnalyzerAgent (t : Nat) (w : World) (a : AnomalyReport)
    (snap : HealthSnapshot) : PipeStep t w (runAnalyzerAgent w t a snap).2 := by
  unfold runAnalyzerAgent
  refine pipeStep_executeAgent t w _ _ ?_
  intro w'
  exact pipeStep_trans (pipeStep_updateStatus t w' .analyzing)
    (pipeStep_trans (pipeStep_sleepW t _ 1200) (pipeStep_setRootCause t _ _))

theorem pipeStep_runHealingAgent (env : Env) (t : Nat) (w : World) (fs : String) :
    PipeStep t w (runHealingAgent env w t fs).2 := by
  unfold runHealingAgent
  refine pipeStep_executeAgent t w _ _ ?_
  intro w'
  have h1 : PipeStep t w' (updateStatus w' t .healing) := pipeStep_updateStatus t w' .healing
  have h2 : PipeStep t (updateStatus w' t .healing)
      (healRemediate env t fs (updateStatus w' t .healing)).2.2.2 :=
    pipeStep_of_store_eq (healRemediate_store env t fs _).1 (healRemediate_store env t fs _).2
  have h3 := pipeStep_trans (pipeStep_trans h1 h2)
    (pipeStep_addRecoveryAttempt t (healRemediate env t fs (updateStatus w' t .healing)).2.2.2
      { action := .restart_pod,
        timestamp := (healRemediate env t fs (updateStatus w' t .healing)).2.2.2.clock,
        target := "demo-app",
        success := (healRemediate env t fs (updateStatus w' t .healing)).1,
        error := (healRemediate env t fs (updateStatus w' t .healing)).2.2.1,
        duration := (healRemediate env t fs (updateStatus w' t .healing)).2.2.2.clock -
          (updateStatus w' t .healing).clock })
  exact pipeStep_trans h3 (pipeStep_ite_emitW t _ _ _ _ _ _)

theorem pipeStep_runRecoveryDecisionAgent (t : Nat) (w : World) (hs : Bool) :
    PipeStep t w (runRecoveryDecisionAgent w t hs).2 := by
  unfold runRecoveryDecisionAgent
  refine pipeStep_executeAgent t w _ _ ?_
  intro w'
  exact pipeStep_sleepW t w' 600

theorem pipeStep_runDisasterRecoveryAgent (env : Env) (t : Nat) (w : World) :
    PipeStep t w (runDisasterRecoveryAgent env w t).2 := by
  unfold runDisasterRecoveryAgent
  refine pipeStep_executeAgent t w _ _ ?_
  intro w'
  exact
    pipeStep_trans (pipeStep_updateStatus t w' .recovering)
      (pipeStep_trans (pipeStep_emitW t _ _ _)
        (pipeStep_trans (pipeStep_emitW t _ _ _)
          (pipeStep_trans (pipeStep_sleepW t _ 1000)
            (pipeStep_trans (pipeStep_emitW t _ _ _)
              (pipeStep_trans (pipeStep_recordFetch t _ _)
                (pipeStep_trans (pipeStep_sleepW t _ 2000)
                  (pipeStep_trans (pipeStep_emitW t _ _ _)
                    (pipeStep_trans
                      (pipeStep_of_store_eq
                        (drValidateHealth_store env.drHealthOk 0 5 _).1
                        (drValidateHealth_store env.drHealthOk 0 5 _).2)
                      (pipeStep_trans (pipeStep_addRecoveryAttempt t _ _)
                        (pipeStep_emitW t _ _ _))))))))))

theorem pipeStep_runTrafficSwitchAgent (env : Env) (t : Nat) (w : World) (ready : Bool) :
    PipeStep t w (runTrafficSwitchAgent env w t ready).2 := by
  unfold runTrafficSwitchAgent
  refine pipeStep_executeAgent t w _ _ ?_
  intro w'
  cases ready
  · exact pipeStep_emitW t w' _ _
  · exact
      pipeStep_trans (pipeStep_emitW t w' _ _)
        (pipeStep_trans (pipeStep_emitW t _ _ _)
          (pipeStep_trans (pipeStep_sleepW t _ 1500)
            (pipeStep_trans (pipeStep_recordFetch t _ _)
              (pipeStep_ite_emitW_id t _ _ _ _))))

theorem pipeStep_reporterBody (t : Nat) (w : World) :
    PipeStep t w (reporterBody t w).2 := by
  unfold reporterBody
  cases h : getIncident w.store t with
  | none => exact pipeStep_refl t w
  | some i =>
    exact
      pipeStep_trans (pipeStep_sleepW t w 1000)
        (pipeStep_trans (pipeStep_setReport t _ _)
          (pipeStep_trans (pipeStep_updateStatus t _ .resolved)
            (pipeStep_emitW t _ _ _)))

theorem pipeStep_runReporterAgent (t : Nat) (w : World) :
    PipeStep t w (runReporterAgent w t).2 := by
  unfold runReporterAgent
  exact pipeStep_executeAgent t w _ _ (fun w' => pipeStep_reporterBody t w')

theorem createIncident_pipeStep (w : World) (ft : FailureType) (sev : Severity)
    (services : List String) :
    PipeStep w.nextId
      { w with store := w.store ++ [newIncident w ft sev services],
               nextId := w.nextId + 1 }
      (createIncident w ft sev services) := by
  unfold createIncident
  exact pipeStep_trans (pipeStep_emitW _ _ _ _) (pipeStep_addTimeline _ _ _ _)

/-- The pipeline creates exactly one incident and only rewrites it: its world
evolution from the post-creation world is a PipeStep at the new id. -/
theorem runPipeline_pipeStep (env : Env) (w : World) (a : AnomalyReport)
    (snap : HealthSnapshot) :
    PipeStep w.nextId
      { w with store := w.store ++ [newIncident w a.failureType a.severity a.affectedServices],
               nextId := w.nextId + 1 }
      (runPipeline env w a snap) := by
  simp only [runPipeline, pipelineTail]
  split
  · exact
      pipeStep_trans (createIncident_pipeStep w _ _ _)
        (pipeStep_trans (pipeStep_runObservabilityAgent w.nextId _ a snap)
          (pipeStep_trans (pipeStep_runAnalyzerAgent w.nextId _ a snap)
            (pipeStep_trans (pipeStep_runHealingAgent env w.nextId _ _)
              (pipeStep_trans (pipeStep_runRecoveryDecisionAgent w.nextId _ _)
                (pipeStep_runReporterAgent w.nextId _)))))
  · split
    · exact
        pipeStep_trans (createIncident_pipeStep w _ _ _)
          (pipeStep_trans (pipeStep_runObservabilityAgent w.nextId _ a snap)
            (pipeStep_trans (pipeStep_runAnalyzerAgent w.nextId _ a snap)
              (pipeStep_trans (pipeStep_runHealingAgent env w.nextId _ _)
                (pipeStep_trans (pipeStep_runRecoveryDecisionAgent w.nextId _ _)
                  (pipeStep_trans (pipeStep_updateStatus w.nextId _ .escalated)
                    (pipeStep_trans (pipeStep_runDisasterRecoveryAgent env w.nextId _)
                      (pipeStep_trans (pipeStep_runTrafficSwitchAgent env w.nextId _ _)
                        (pipeStep_runReporterAgent w.nextId _))))))))
    · exact
        pipeStep_trans (createIncident_pipeStep w _ _ _)
          (pipeStep_trans (pipeStep_runObservabilityAgent w.nextId _ a snap)
            (pipeStep_trans (pipeStep_runAnalyzerAgent w.nextId _ a snap)
              (pipeStep_trans (pipeStep_runHealingAgent env w.nextId _ _)
                (pipeStep_runRecoveryDecisionAgent w.nextId _ _))))

/-- All incident ids in the store are below the id counter. -/
def idsBelow (n : Nat) (s : List Incident) : Prop := ∀ i ∈ s, i.id < n

/-- Every incident other than the target is terminal. -/
def onlyTargetActive (t : Nat) (s : List Incident) : Prop :=
  ∀ i ∈ s, i.id = t ∨ nonTerminal i = false

theorem countNonTerminal_le_targetCount {t : Nat} {s : List Incident}
    (h : onlyTargetActive t s) :
    countNonTerminal s ≤ (s.filter (fun i => i.id == t)).length := by
  induction s with
  | nil => exact Nat.le_refl 0
  | cons a s ih =>
    have ha := h a (List.mem_cons_self a s)
    have htail : onlyTargetActive t s := fun i hi => h i (List.mem_cons_of_mem a hi)
    have ihs := ih htail
    unfold countNonTerminal at ihs ⊢
    cases hna : nonTerminal a with
    | false =>
      rw [List.filter_cons, List.filter_cons, hna,
        if_neg (by decide : ¬ (false = true))]
      by_cases hid : (a.id == t) = true
      · rw [if_pos hid]
        simpa using Nat.le_succ_of_le ihs
      · rw [if_neg hid]
        exact ihs
    | true =>
      have haid : (a.id == t) = true := by
        rcases ha with h1 | h2
        · simp [h1]
        · rw [hna] at h2; cases h2
      rw [List.filter_cons, List.filter_cons, hna, if_pos rfl, if_pos haid]
      simpa using Nat.succ_le_succ ihs

theorem onlyTargetActive_of_targetMapped {t : Nat} {s s' : List Incident}
    (tm : TargetMapped t s s') (h : onlyTargetActive t s) : onlyTargetActive t s' := by
  obtain ⟨g, hg, hn, he⟩ := tm
  subst he
  intro i' hi'
  obtain ⟨i, hi, rfl⟩ := List.mem_map.mp hi'
  by_cases hid : i.id = t
  · left
    rw [hg i, hid]
  · rcases h i hi with h1 | h2
    · exact absurd h1 hid
    · right
      rw [hn i hid]
      exact h2

theorem targetCount_map (t : Nat) (s : List Incident) (g : Incident → Incident)
    (hg : ∀ i, (g i).id = i.id) :
    ((s.map g).filter (fun i => i.id == t)).length =
      (s.filter (fun i => i.id == t)).length := by
  induction s with
  | nil => rfl
  | cons a s ih =>
    rw [List.map_cons, List.filter_cons, List.filter_cons, hg a]
    by_cases h : (a.id == t) = true
    · rw [if_pos h, if_pos h]
      simpa using ih
    · rw [if_neg h, if_neg h]
      exact ih

theorem idsBelow_of_targetMapped {t n : Nat} {s s' : List Incident}
    (tm : TargetMapped t s s') (h : idsBelow n s) : idsBelow n s' := by
  obtain ⟨g, hg, _, he⟩ := tm
  subst he
  intro i' hi'
  obtain ⟨i, hi, rfl⟩ := List.mem_map.mp hi'
  rw [hg i]
  exact h i hi

theorem nonTerminal_false_of_count_zero {s : List Incident}
    (h : countNonTerminal s = 0) : ∀ i ∈ s, nonTerminal i = false := by
  unfold countNonTerminal at h
  have hnil := List.length_eq_zero.mp h
  intro i hi
  by_contra hc
  have hmem : i ∈ s.filter nonTerminal :=
    List.mem_filter.mpr ⟨hi, by revert hc; cases nonTerminal i <;> simp⟩
  rw [hnil] at hmem
  cases hmem

/-- getActiveIncident reports nothing exactly when no non-terminal incident
exists. -/
theorem getActiveIncident_none_iff (s : List Incident) :
    getActiveIncident s = none ↔ countNonTerminal s = 0 := by
  unfold getActiveIncident countNonTerminal
  generalize s.filter nonTerminal = l
  constructor
  · intro h
    cases l with
    | nil => rfl
    | cons a l' =>
      exfalso
      have key : ∀ (m : List Incident) (j : Incident),
          m.foldl (fun acc i =>
            match acc with
            | none => some i
            | some j => if j.timestamp < i.timestamp then some i else some j)
            (some j) ≠ none := by
        intro m
        induction m with
        | nil => intro j hj; exact Option.some_ne_none j hj
        | cons b m ih =>
          intro j
          rw [List.foldl_cons]
          by_cases hb : j.timestamp < b.timestamp
          · simpa [hb] using ih b
          · simpa [hb] using ih j
      rw [List.foldl_cons] at h
      exact key l' a h
  · intro h
    rw [List.length_eq_zero.mp h]
    rfl

/-- The pipeline grows the store by exactly the one incident it creates. -/
theorem runPipeline_length (env : Env) (w : World) (a : AnomalyReport)
    (snap : HealthSnapshot) :
    (runPipeline env w a snap).store.length = w.store.length + 1 := by
  have h := targetMapped_length (runPipeline_pipeStep env w a snap).2
  simpa using h

theorem getIncident_append_fresh (s : List Incident) (inc : Incident) (t : Nat)
    (hid : inc.id = t) (hf : ∀ i ∈ s, i.id ≠ t) :
    getIncident (s ++ [inc]) t = some inc := by
  subst hid
  unfold getIncident
  induction s with
  | nil => simp
  | cons a s ih =>
    have hne : ¬ ((fun i : Incident => i.id == inc.id) a) = true := by
      simp [hf a (List.mem_cons_self a s)]
    rw [List.cons_append,
      show List.find? (fun i : Incident => i.id == inc.id) (a :: (s ++ [inc])) =
          List.find? (fun i : Incident => i.id == inc.id) (s ++ [inc]) from
        List.find?_cons_of_neg _ hne]
    exact ih (fun i hi => hf i (List.mem_cons_of_mem a hi))

/-- Presence of the target incident is preserved along any PipeStep. -/
theorem pipeStep_presence {t : Nat} {w w' : World} (h : PipeStep t w w')
    (hp : (getIncident w.store t).isSome = true) :
    (getIncident w'.store t).isSome = true := by
  obtain ⟨inc, h0⟩ := Option.isSome_iff_exists.mp hp
  obtain ⟨g, _, hs⟩ := targetMapped_getIncident h.2 h0
  rw [hs]
  rfl

/-- Starting from a store with no active incident and all ids below the
counter, the pipeline leaves at most one non-terminal incident and keeps all
ids below the (incremented) counter. -/
theorem runPipeline_store_inv (env : Env) (w : World) (a : AnomalyReport)
    (snap : HealthSnapshot) (hfresh : idsBelow w.nextId w.store)
    (hcnt : countNonTerminal w.store = 0) :
    countNonTerminal (runPipeline env w a snap).store ≤ 1 ∧
      idsBelow (runPipeline env w a snap).nextId (runPipeline env w a snap).store := by
  obtain ⟨hnext, tm⟩ := runPipeline_pipeStep env w a snap
  have hterm := nonTerminal_false_of_count_zero hcnt
  have hOTA : onlyTargetActive w.nextId
      (w.store ++ [newIncident w a.failureType a.severity a.affectedServices]) := by
    intro i hi
    rcases List.mem_append.mp hi with h1 | h2
    · right; exact hterm i h1
    · left
      have : i = newIncident w a.failureType a.severity a.affectedServices := by
        simpa using h2
      rw [this]
      rfl
  have hOTA' := onlyTargetActive_of_targetMapped tm hOTA
  obtain ⟨g, hg, hn, he⟩ := tm
  have he' : (runPipeline env w a snap).store =
      (w.store ++ [newIncident w a.failureType a.severity a.affectedServices]).map g := he
  refine ⟨?_, ?_⟩
  · have h1 := countNonTerminal_le_targetCount hOTA'
    have h2 : (((w.store ++ [newIncident w a.failureType a.severity a.affectedServices]).map g).filter
        (fun i => i.id == w.nextId)).length =
        ((w.store ++ [newIncident w a.failureType a.severity a.affectedServices]).filter
          (fun i => i.id == w.nextId)).length :=
      targetCount_map w.nextId _ g hg
    have h3 : ((w.store ++ [newIncident w a.failureType a.severity a.affectedServices]).filter
        (fun i => i.id == w.nextId)).length ≤ 1 := by
      rw [List.filter_append]
      have hzero : w.store.filter (fun i => i.id == w.nextId) = [] := by
        refine List.filter_eq_nil_iff.mpr ?_
        intro i hi
        have := hfresh i hi
        simp
        omega
      rw [hzero]
      simp [newIncident]
    rw [he'] at h1 ⊢
    rw [h2] at h1
    exact le_trans h1 h3
  · rw [hnext]
    refine idsBelow_of_targetMapped ⟨g, hg, hn, he'⟩ ?_
    intro i hi
    rcases List.mem_append.mp hi with h1 | h2
    · exact Nat.lt_succ_of_lt (hfresh i h1)
    · have : i = newIncident w a.failureType a.severity a.affectedServices := by
        simpa using h2
      rw [this]
      exact Nat.lt_succ_self w.nextId

/-- The orchestrator invariant: at most one non-terminal incident and all ids
below the id counter. -/
def OrchInv (s : OrchState) : Prop :=
  countNonTerminal s.world.store ≤ 1 ∧ idsBelow s.world.nextId s.world.store

theorem monitoringStep_inv (s : OrchState) (poll : HealthSnapshot × Env)
    (h : OrchInv s) : OrchInv (monitoringStep s poll) := by
  obtain ⟨h1, h2⟩ := h
  simp only [monitoringStep]
  split
  · split
    · split
      · rename_i hact
        have hc0 : countNonTerminal s.world.store = 0 := by
          rw [emitW_store] at hact
          exact (getActiveIncident_none_iff _).mp hact
        exact runPipeline_store_inv poll.2 _ _ poll.1 h2 hc0
      · exact ⟨h1, h2⟩
    · exact ⟨h1, h2⟩
  · exact ⟨h1, h2⟩

/-- C4: for every sequence of poll outcomes — any interleaving of healthy and
anomalous classifications, with any external-call outcomes for the pipelines —
the store reached from the initial state holds at most one non-terminal
incident; the orchestrator opens an incident (createIncident runs inside
runPipeline) only in the branch where getActiveIncident reported none. -/
theorem at_most_one_nonterminal_incident (polls : List (HealthSnapshot × Env)) :
    countNonTerminal (polls.foldl monitoringStep initOrch).world.store ≤ 1 := by
  have key : ∀ (ps : List (HealthSnapshot × Env)) (s : OrchState), OrchInv s →
      OrchInv (ps.foldl monitoringStep s) := by
    intro ps
    induction ps with
    | nil => intro s hs; exact hs
    | cons p ps ih =>
      intro s hs
      exact ih _ (monitoringStep_inv s p hs)
  have hinit : OrchInv initOrch := by
    constructor
    · exact Nat.zero_le 1
    · intro i hi
      cases hi
  exact (key polls initOrch hinit).1

/-- A nominal healthy snapshot: HTTP 200, fast, quiet metrics. -/
def snapNominal : HealthSnapshot :=
  { demoApp := { healthy := true, statusCode := 200, responseTimeMs := 50, error := none }
    database := { healthy := true, error := none }
    prometheus := { healthy := true, error := none }
    metrics :=
      { errorRate := 1, latencyP99Ms := 40, memoryUsageMB := 120,
        podRestarts := 0, httpRequestsTotal := 500 }
    timestamp := 0 }

/-- An environment in which every external call fails. -/
def envNone : Env :=
  { healResetOk := none, healHealthOk := none, drResetOk := false,
    drHealthOk := fun _ => false, trafficHealthOk := false }

/-- C3: hysteresis of the polling loop.  From counters at zero: an anomalous
poll followed by a healthy poll leaves the store untouched (no incident is
opened) and the healthy poll resets the unhealthy counter to 0; two
consecutive anomalous polls with no active incident grow the store by exactly
one incident. -/
theorem hysteresis_polls (w : World) (p1 p2 : HealthSnapshot × Env) :
    (detectAnomalies p1.1 ≠ none → detectAnomalies p2.1 = none →
      (monitoringStep (monitoringStep ⟨w, 0, 0⟩ p1) p2).world.store = w.store ∧
        (monitoringStep (monitoringStep ⟨w, 0, 0⟩ p1) p2).consecutiveUnhealthy = 0) ∧
    (detectAnomalies p1.1 ≠ none → detectAnomalies p2.1 ≠ none →
      getActiveIncident w.store = none →
      (monitoringStep (monitoringStep ⟨w, 0, 0⟩ p1) p2).world.store.length =
        w.store.length + 1) := by
  have hstep1 : ∀ a1, detectAnomalies p1.1 = some a1 →
      monitoringStep ⟨w, 0, 0⟩ p1 =
        ⟨emitW w .health_check
          [("healthy", toString p1.1.demoApp.healthy),
           ("statusCode", toString p1.1.demoApp.statusCode)], 0, 1⟩ := by
    intro a1 ha1
    simp [monitoringStep, ha1]
  constructor
  · intro h1 h2
    cases hd1 : detectAnomalies p1.1 with
    | none => exact absurd hd1 h1
    | some a1 =>
      rw [hstep1 a1 hd1]
      simp [monitoringStep, h2]
  · intro h1 h2 hact
    cases hd1 : detectAnomalies p1.1 with
    | none => exact absurd hd1 h1
    | some a1 =>
      cases hd2 : detectAnomalies p2.1 with
      | none => exact absurd hd2 h2
      | some a2 =>
        rw [hstep1 a1 hd1]
        simp [monitoringStep, hd2, hact, runPipeline_length]

/-- C3 witness: the hysteresis theorem at the initial world, with an
unreachable-service snapshot as the anomalous poll and a nominal snapshot as
the healthy poll. -/
theorem hysteresis_polls_witness :
    (detectAnomalies snapDown0 ≠ none ∧ detectAnomalies snapNominal = none ∧
      getActiveIncident initWorld.store = none) ∧
      ((monitoringStep (monitoringStep ⟨initWorld, 0, 0⟩ (snapDown0, envNone))
          (snapNominal, envNone)).world.store = initWorld.store ∧
        (monitoringStep (monitoringStep ⟨initWorld, 0, 0⟩ (snapDown0, envNone))
          (snapNominal, envNone)).consecutiveUnhealthy = 0) ∧
      (monitoringStep (monitoringStep ⟨initWorld, 0, 0⟩ (snapDown0, envNone))
          (snapDown0, envNone)).world.store.length = initWorld.store.length + 1 :=
  ⟨⟨by decide, by decide, by decide⟩,
    (hysteresis_polls initWorld (snapDown0, envNone) (snapNominal, envNone)).1
      (by decide) (by decide),
    (hysteresis_polls initWorld (snapDown0, envNone) (snapDown0, envNone)).2
      (by decide) (by decide) (by decide)⟩

theorem decisionData_decision (hs : Bool) (n : Nat) :
    listLookup (decisionData hs n) "decision" =
      some (if hs then "resolved" else "escalate_dr") := by
  cases hs
  · unfold decisionData
    by_cases h : n ≥ 3
    · rw [if_neg (by decide : ¬ (false = true)), if_pos h]
      rfl
    · rw [if_neg (by decide : ¬ (false = true)), if_neg h]
      rfl
  · rfl

theorem decisionData_nextAction (hs : Bool) (n : Nat) :
    listLookup (decisionData hs n) "nextAction" =
      some (if hs then "generate_report" else "disaster_recovery") := by
  cases hs
  · unfold decisionData
    by_cases h : n ≥ 3
    · rw [if_neg (by decide : ¬ (false = true)), if_pos h]
      rfl
    · rw [if_neg (by decide : ¬ (false = true)), if_neg h]
      rfl
  · rfl

theorem recoveryDecisionAgent_data (w : World) (t : Nat) (hs : Bool) :
    ∃ n, (runRecoveryDecisionAgent w t hs).1.data = decisionData hs n :=
  ⟨_, rfl⟩

/-- C6: the Recovery Decision stage decides resolved exactly when healing
succeeded and escalate_dr whenever it failed, with the matching next action,
for every incident and every store state — so the prior-attempt count (which
only varies the reason text) never changes the decision: every healing
failure escalates. -/
theorem recoveryDecision_success_resolves_failure_escalates (w : World) (t : Nat)
    (hs : Bool) :
    dataLookup (runRecoveryDecisionAgent w t hs).1 "decision" =
        some (if hs then "resolved" else "escalate_dr") ∧
      dataLookup (runRecoveryDecisionAgent w t hs).1 "nextAction" =
        some (if hs then "generate_report" else "disaster_recovery") := by
  obtain ⟨n, hn⟩ := recoveryDecisionAgent_data w t hs
  unfold dataLookup
  rw [hn]
  exact ⟨decisionData_decision hs n, decisionData_nextAction hs n⟩

/-- The stage wrapper only appends timeline entries around its body: the
target incident after executeAgent is the incident of the body result with an
extended timeline — status and report untouched by the wrapper. -/
theorem getIncident_executeAgent (name : String) (t : Nat) (w : World)
    (body : World → Except String (List (String × String)) × World) :
    ∃ f : Incident → Incident,
      (∀ i, (f i).status = i.status ∧ (f i).report = i.report) ∧
      getIncident (executeAgent name t w body).2.store t =
        (getIncident (body (addTimeline (emitW w .agent_start
            [("agent", name), ("incidentId", toString t)]) t
            (name ++ " started") [])).2.store t).map f := by
  simp only [executeAgent]
  rcases hb : body (addTimeline (emitW w .agent_start
      [("agent", name), ("incidentId", toString t)]) t (name ++ " started") [])
    with ⟨res, w3⟩
  cases res with
  | ok data =>
    refine ⟨fun i => { i with timeline := i.timeline ++
        [⟨w3.clock, name ++ " completed", data⟩] }, fun i => ⟨rfl, rfl⟩, ?_⟩
    rw [getIncident_addTimeline]
    simp only [emitW_store, emitW_clock]
  | error msg =>
    refine ⟨fun i => { i with timeline := i.timeline ++
        [⟨w3.clock, name ++ " failed: " ++ msg, []⟩] }, fun i => ⟨rfl, rfl⟩, ?_⟩
    rw [getIncident_addTimeline]
    simp only [emitW_store, emitW_clock]

/-- When its incident exists, the Reporter body attaches a report and resolves
the incident. -/
theorem reporterBody_resolves (t : Nat) (w : World) (inc0 : Incident)
    (h : getIncident w.store t = some inc0) :
    ∃ incB, getIncident (reporterBody t w).2.store t = some incB ∧
      incB.status = .resolved ∧ incB.report.isSome = true := by
  unfold reporterBody
  simp only [h, emitW_store]
  rw [getIncident_updateStatus, getIncident_setReport]
  simp only [sleepW_store, h, Option.map_some']
  refine ⟨_, rfl, statusApply_status _ _ _, ?_⟩
  rw [statusApply_report]
  rfl

/-- When its incident exists, the Reporter stage leaves it resolved with a
report attached. -/
theorem runReporterAgent_resolves (w : World) (t : Nat)
    (h : (getIncident w.store t).isSome = true) :
    ∃ inc, getIncident (runReporterAgent w t).2.store t = some inc ∧
      inc.status = .resolved ∧ inc.report.isSome = true := by
  obtain ⟨f, hf, heq⟩ := getIncident_executeAgent "Incident Reporter" t w (reporterBody t)
  obtain ⟨inc0, h0⟩ := Option.isSome_iff_exists.mp h
  have hpre : getIncident (addTimeline (emitW w .agent_start
      [("agent", "Incident Reporter"), ("incidentId", toString t)]) t
      ("Incident Reporter" ++ " started") []).store t =
      some { inc0 with timeline := inc0.timeline ++
        [⟨w.clock, "Incident Reporter" ++ " started", []⟩] } := by
    rw [getIncident_addTimeline]
    simp only [emitW_store, emitW_clock]
    rw [h0]
    rfl
  obtain ⟨incB, hB, hBs, hBr⟩ := reporterBody_resolves t _ _ hpre
  unfold runReporterAgent
  rw [heq, hB]
  exact ⟨f incB, rfl, by rw [(hf incB).1]; exact hBs, by rw [(hf incB).2]; exact hBr⟩

/-- Both decision branches of the pipeline tail end in the Reporter, which
resolves the incident and attaches its report, whatever the healing outcome
and external-call results. -/
theorem pipelineTail_resolves (env : Env) (t : Nat) (w : World) (hs : Bool)
    (hpres : (getIncident w.store t).isSome = true) :
    ∃ inc, getIncident (pipelineTail env t w hs).store t = some inc ∧
      inc.status = .resolved ∧ inc.report.isSome = true := by
  obtain ⟨n, hn⟩ := recoveryDecisionAgent_data w t hs
  have hdec : dataLookup (runRecoveryDecisionAgent w t hs).1 "decision" =
      some (if hs then "resolved" else "escalate_dr") := by
    unfold dataLookup
    rw [hn]
    exact decisionData_decision hs n
  have hpres2 : (getIncident (runRecoveryDecisionAgent w t hs).2.store t).isSome = true :=
    pipeStep_presence (pipeStep_runRecoveryDecisionAgent t w hs) hpres
  simp only [pipelineTail]
  rw [hdec]
  cases hs
  · rw [if_neg (by decide), if_pos (by decide)]
    apply runReporterAgent_resolves
    exact pipeStep_presence
      (pipeStep_trans (pipeStep_updateStatus t _ .escalated)
        (pipeStep_trans (pipeStep_runDisasterRecoveryAgent env t _)
          (pipeStep_runTrafficSwitchAgent env t _ _))) hpres2
  · rw [if_pos (by decide)]
    apply runReporterAgent_resolves
    exact hpres2

/-- C7 (main): for every starting store whose ids are fresh for the new
incident, a pipeline run — whichever branch the Decision stage selects and
whether or not the recovery stages succeed — ends with the Reporter having
attached exactly one report (the report field set) to the incident it created
and having transitioned it to resolved. -/
theorem pipeline_ends_resolved_with_report (env : Env) (w : World)
    (a : AnomalyReport) (snap : HealthSnapshot)
    (hfresh : ∀ i ∈ w.store, i.id ≠ w.nextId) :
    ∃ inc, getIncident (runPipeline env w a snap).store w.nextId = some inc ∧
      inc.status = .resolved ∧ inc.report.isSome = true := by
  simp only [runPipeline]
  apply pipelineTail_resolves
  refine @pipeStep_presence w.nextId
    { w with store := w.store ++ [newIncident w a.failureType a.severity a.affectedServices],
             nextId := w.nextId + 1 } _ ?_ ?_
  · exact pipeStep_trans (createIncident_pipeStep w _ _ _)
      (pipeStep_trans (pipeStep_runObservabilityAgent w.nextId _ a snap)
        (pipeStep_trans (pipeStep_runAnalyzerAgent w.nextId _ a snap)
          (pipeStep_runHealingAgent env w.nextId _ _)))
  · show (getIncident (w.store ++ [newIncident w a.failureType a.severity a.affectedServices])
      w.nextId).isSome = true
    rw [getIncident_append_fresh w.store _ w.nextId rfl hfresh]
    rfl

/-- A sample anomaly report for concrete pipeline evaluations. -/
def anomalyDown : AnomalyReport :=
  { detected := true, failureType := .service_down, severity := .critical,
    affectedServices := ["demo-app"],
    evidence := [("statusCode", "0")],
    description := "Demo application is completely unreachable. Service appears to be down." }

/-- C7 witness: a full pipeline run from the empty store, with every external
call failing, still leaves the created incident resolved with a report. -/
theorem pipeline_ends_resolved_with_report_witness :
    (∀ i ∈ initWorld.store, i.id ≠ initWorld.nextId) ∧
      ∃ inc, getIncident (runPipeline envNone initWorld anomalyDown snapDown0).store
          initWorld.nextId = some inc ∧
        inc.status = .resolved ∧ inc.report.isSome = true :=
  ⟨by intro i hi; simp [initWorld] at hi,
    pipeline_ends_resolved_with_report envNone initWorld anomalyDown snapDown0
      (by intro i hi; simp [initWorld] at hi)⟩

/-- C8 (amended): when the prior stage reported the system not ready for
traffic, the Traffic Switch stage short-circuits — it performs no health check
(the fetch log is unchanged) and no stabilization wait (the clock is
unchanged) — and reports the trafficStatus "failed" in its result (not
"rolled_back", which it reports only after a failed post-wait health check
on the ready path). -/
theorem trafficSwitch_not_ready_short_circuit (env : Env) (w : World) (t : Nat) :
    dataLookup (runTrafficSwitchAgent env w t false).1 "trafficStatus" = some "failed" ∧
      (runTrafficSwitchAgent env w t false).2.fetchLog = w.fetchLog ∧
      (runTrafficSwitchAgent env w t false).2.clock = w.clock := by
  refine ⟨rfl, ?_, ?_⟩ <;> simp [runTrafficSwitchAgent, executeAgent]

/-- C8 counterexample: at a concrete not-ready input the short-circuited
Traffic Switch result carries trafficStatus "failed", not "rolled_back" as
the claim states. -/
theorem trafficSwitch_not_ready_not_rolled_back :
    dataLookup (runTrafficSwitchAgent envNone initWorld 0 false).1 "trafficStatus" ≠
      some "rolled_back" := by
  decide

/-- C10: updateStatus performs no transition validation: for every incident
present in the store and every target status — including moving a terminal
incident back to a non-terminal state — the incident afterwards carries
exactly the requested status, and a resolved request (re)stamps resolvedAt
with the current clock. -/
theorem updateStatus_unvalidated (w : World) (id : Nat) (st : IncidentStatus)
    (h : (getIncident w.store id).isSome = true) :
    ∃ inc, getIncident (updateStatus w id st).store id = some inc ∧
      inc.status = st ∧ (st = .resolved → inc.resolvedAt = some w.clock) := by
  obtain ⟨inc0, h0⟩ := Option.isSome_iff_exists.mp h
  rw [getIncident_updateStatus, h0]
  refine ⟨_, rfl, statusApply_status _ _ _, ?_⟩
  intro hst
  rw [hst]
  exact statusApply_resolvedAt_of_resolved w.clock inc0

/-- A store holding one already-resolved incident with a stale resolution
timestamp. -/
def incResolvedStale : Incident :=
  { id := 1, timestamp := 0, status := .resolved, failureType := .service_down,
    severity := .critical, affectedServices := ["demo-app"], rootCause := none,
    attemptedActions := [], resolvedAt := some 99, report := none, timeline := [] }

/-- A world for exercising updateStatus on a terminal incident. -/
def wStale : World :=
  { store := [incResolvedStale], busHistory := [], fetchLog := [], clock := 123,
    nextId := 2 }

/-- C10 witness: on an already-resolved incident, updateStatus moves it back
to healing without complaint, and a second resolved request restamps
resolvedAt with the current clock (123, not the stale 99). -/
theorem updateStatus_unvalidated_witness :
    (getIncident wStale.store 1).isSome = true ∧
      (∃ inc, getIncident (updateStatus wStale 1 .healing).store 1 = some inc ∧
        inc.status = .healing ∧
        (IncidentStatus.healing = .resolved → inc.resolvedAt = some wStale.clock)) ∧
      (∃ inc, getIncident (updateStatus wStale 1 .resolved).store 1 = some inc ∧
        inc.status = .resolved ∧
        (IncidentStatus.resolved = .resolved → inc.resolvedAt = some wStale.clock)) :=
  ⟨by decide,
    updateStatus_unvalidated wStale 1 .healing (by decide),
    updateStatus_unvalidated wStale 1 .resolved (by decide)⟩

end Resurrector
